import Mathlib

/-
Verification of the routing-optimization backend (src/main.py).

The service builds an OR-Tools vehicle-routing model from a request
(jobs with demands and time windows, a vehicle count, a capacity flag,
an open-path flag), solves it under a time budget, and extracts per-vehicle
stop lists with arrival times, loads and road geometry.

The embedding below translates the pure parts of src/main.py directly.
External collaborators (the OSRM distance/geometry provider, the OR-Tools
solver) are modelled as explicit inputs: the solver as an abstract
`SolverSolution` together with the validity predicate the spec states for
accepted solutions, the network calls as `Option`-valued responses.
-/

namespace Optribute

/-- A job, translated from the pydantic model `Job` in src/main.py
(id, lat, lon, demand defaulting to 0, time window defaulting to
[480, 1080] minutes).  Coordinates are carried opaquely and never
computed with, so they are represented as integers. -/
structure Job where
  id : Int
  lat : Int
  lon : Int
  demand : Int := 0
  time_start : Int := 480
  time_end : Int := 1080
deriving Repr, DecidableEq, Inhabited

/-- The optimization request, translated from `OptimizationRequest`
in src/main.py. -/
structure OptimizationRequest where
  vehicle_count : Nat
  vehicle_capacity : Int := 1000
  jobs : List Job
  use_capacity : Bool := true
  open_path : Bool := false
deriving Repr, DecidableEq, Inhabited

/-- The fixed per-stop service time constant, `SERVICE_TIME = 10`
in src/main.py. -/
def SERVICE_TIME : Int := 10

/-- Modelled from the spec: the index-to-node map of the routing index
manager (`manager.IndexToNode`, provided by the external OR-Tools
library).  Indices below the number of locations denote the node itself;
the extra start/end indices of the vehicles all map to the depot node 0. -/
def indexToNode (n : Nat) (index : Nat) : Nat :=
  if index < n then index else 0

/-- The arc-cost callback `distance_callback` of src/main.py (lines
130-133): 0 when open-path mode is on and the destination node is the
depot, otherwise the distance-matrix entry for the node pair. -/
def distance_callback (open_path : Bool) (distance_matrix : Nat → Nat → Int)
    (n : Nat) (from_index to_index : Nat) : Int :=
  let from_node := indexToNode n from_index
  let to_node := indexToNode n to_index
  if open_path = true ∧ to_node = 0 then 0
  else distance_matrix from_node to_node

/-- The time callback `time_callback` of src/main.py (lines 143-147):
0 when the two nodes coincide, 0 when open-path mode is on and the
destination node is the depot, otherwise the duration-matrix entry plus
the fixed service time. -/
def time_callback (open_path : Bool) (duration_matrix : Nat → Nat → Int)
    (n : Nat) (from_index to_index : Nat) : Int :=
  let from_node := indexToNode n from_index
  let to_node := indexToNode n to_index
  if from_node = to_node then 0
  else if open_path = true ∧ to_node = 0 then 0
  else duration_matrix from_node to_node + SERVICE_TIME

/-- The unary capacity callback `demand_callback` of src/main.py (lines
138-140): the demand recorded for the node the index denotes. -/
def demand_callback (locations : List Job) (from_index : Nat) : Int :=
  let from_node := indexToNode locations.length from_index
  (locations.getD from_node default).demand

/-- The global span cost coefficient set on the Distance dimension,
src/main.py line 156: `SetGlobalSpanCostCoefficient(0)`.  The literal 0
is applied for every request; the request type has no field influencing
it. -/
def globalSpanCostCoefficient (_request : OptimizationRequest) : Int := 0

/-- The time-window normalization of src/main.py line 167: when
`time_start > time_end` the two endpoints are swapped. -/
def normalizeWindow (start_t end_t : Int) : Int × Int :=
  if start_t > end_t then (end_t, start_t) else (start_t, end_t)

/-- A bound registered on the cumulative-time variable of one node:
a hard minimum (`SetMin`) and a soft upper bound with a linear penalty
coefficient (`SetCumulVarSoftUpperBound`). -/
structure TimeWindowBound where
  node : Nat
  hardMin : Int
  softMax : Int
  coeff : Int
deriving Repr, DecidableEq

/-- The body of the time-window constraint loop, src/main.py lines
165-170: normalize the window of location i; when the normalized window
is not the default [480, 1080], register a hard minimum at the window
start and a soft upper bound at the window end with penalty coefficient
100, otherwise register nothing. -/
def twbStep (locations : List Job) (i : Nat) : Option TimeWindowBound :=
  let loc := locations.getD i default
  let p := normalizeWindow loc.time_start loc.time_end
  if p.1 ≠ 480 ∨ p.2 ≠ 1080 then some ⟨i, p.1, p.2, 100⟩ else none

/-- The time-window constraint loop of src/main.py lines 164-170,
iterating the body over every non-depot location index
(`for i in range(1, len(locations))`). -/
def timeWindowBounds (locations : List Job) : List TimeWindowBound :=
  (List.range' 1 (locations.length - 1)).filterMap (twbStep locations)

/-- One route of an OSRM /route response: the decoded polyline points and
the path distance in meters (`route["geometry"]` after `polyline.decode`,
and `route["distance"]`). -/
structure OsrmRoute where
  geometry : List (Int × Int)
  distance : Int
deriving Repr, DecidableEq

/-- An OSRM /route HTTP response: status code and the decoded `routes`
array.  A `none` response models a raised network exception. -/
structure OsrmResponse where
  status_code : Nat
  routes : List OsrmRoute
deriving Repr, DecidableEq

/-- One element of `path_stops` in src/main.py (lines 195 and 206): a
stop dictionary with location, job id, demand and formatted arrival. -/
structure StopDict where
  lat : Int
  lon : Int
  id : Int
  demand : Int
  arrival_time : String
deriving Repr, DecidableEq, Inhabited

/-- The geometry helper `get_route_geometry` of src/main.py (lines
48-61): with fewer than two stops, on a network exception, on a non-200
status, or on a response without routes it returns an empty point list
and distance 0; otherwise the first route's decoded geometry and
distance. -/
def get_route_geometry (path_locations : List StopDict)
    (response : Option OsrmResponse) : List (Int × Int) × Int :=
  if path_locations.length < 2 then ([], 0)
  else
    match response with
    | none => ([], 0)
    | some r =>
      if r.status_code = 200 then
        match r.routes with
        | route :: _ => (route.geometry, route.distance)
        | [] => ([], 0)
      else ([], 0)

/-- Left-pads a one-digit nonnegative number to two digits, modelling
Python's `:02d` format on the always-nonnegative clock values. -/
def pad2 (n : Int) : String :=
  if n < 10 then "0" ++ toString n else toString n

/-- The arrival-time formatting of src/main.py lines 192 and 205:
`f"{(m // 60) % 24:02d}:{m % 60:02d}"`, with Python floor division and
nonnegative modulo rendered as Euclidean division on `Int`. -/
def formatArrival (arrival_min : Int) : String :=
  pad2 ((arrival_min.ediv 60).emod 24) ++ ":" ++ pad2 (arrival_min.emod 60)

/-- Rounding of the enriched distance, src/main.py line 215:
`round(true_distance / 1000, 2)`, modelled as rounding to a rational
with two decimal places (tie-breaking at exact half-hundredths is not
exercised by any claim). -/
def round2km (true_distance : Int) : ℚ :=
  ((round ((true_distance : ℚ) / 1000 * 100) : ℤ) : ℚ) / 100

/-- One element of `formatted_path` in src/main.py line 209: the stop
dictionary enriched with its 1-based position. -/
structure StopOut where
  order : Nat
  lat : Int
  lon : Int
  original_id : Int
  demand : Int
  arrival_time : String
deriving Repr, DecidableEq, Inhabited

/-- One element of `routes_json` in src/main.py (lines 199 and 211-217). -/
structure RouteOut where
  vehicle_id : Nat
  path : List StopOut
  geometry : List (Int × Int)
  total_km : ℚ
  total_load : Int
deriving Repr, DecidableEq, Inhabited

/-- Modelled from the spec: the accepted assignment produced by the
external OR-Tools search engine, read back through `solution.Value` /
`solution.Min` in src/main.py.  Per vehicle, `visits` lists the
(node, arrival-minute) pairs the extraction loop walks from the
vehicle's start up to (excluding) its end index, and `endArrival` is the
arrival minute at the vehicle's end index. -/
structure SolverSolution where
  visits : List (List (Nat × Int))
  endArrival : List Int
deriving Repr, DecidableEq, Inhabited

/-- The visit list the extraction loop walks for one vehicle. -/
def routeVisits (s : SolverSolution) (v : Nat) : List (Nat × Int) :=
  s.visits.getD v []

/-- The node sequence of one vehicle's walk. -/
def visitNodes (visits : List (Nat × Int)) : List Nat :=
  visits.map Prod.fst

/-- Modelled from the spec: what the external search engine guarantees
for every accepted solution over `n` locations and `V` vehicles — each
vehicle's walk starts at the depot node 0, visits only real non-depot
nodes afterwards, and the non-depot visits over all vehicles form
exactly the node set 1..n-1, each node once. -/
def ValidSolution (n V : Nat) (s : SolverSolution) : Prop :=
  s.visits.length = V ∧
  s.endArrival.length = V ∧
  (∀ v ∈ List.range V,
    (visitNodes (routeVisits s v)).head? = some 0 ∧
    ∀ x ∈ (visitNodes (routeVisits s v)).tail, 0 < x ∧ x < n) ∧
  (((List.range V).map (fun v => (visitNodes (routeVisits s v)).tail)).flatten
      : Multiset Nat)
    = (List.range' 1 (n - 1) : Multiset Nat)

instance decValidSolution (n V : Nat) (s : SolverSolution) :
    Decidable (ValidSolution n V s) := by
  unfold ValidSolution
  exact inferInstance

/-- Builds one vehicle's stop dictionary from a visited node and its
arrival minute (src/main.py lines 193-195). -/
def mkStopDict (locations : List Job) (node : Nat) (arrival : Int) : StopDict :=
  let loc := locations.getD node default
  ⟨loc.lat, loc.lon, loc.id, loc.demand, formatArrival arrival⟩

/-- The per-vehicle extraction of src/main.py lines 185-217: walk the
visits into stop dictionaries accumulating the load; a walk of at most
one stop yields an empty route entry; otherwise, unless in open-path
mode, append the synthetic depot-return stop with the end arrival, fetch
geometry, and number the stops 1-based. -/
def buildVehicleRoute (request : OptimizationRequest) (locations : List Job)
    (vehicle_id : Nat) (visits : List (Nat × Int)) (endArr : Int)
    (response : Option OsrmResponse) : RouteOut :=
  let depot := request.jobs.getD 0 default
  let path_stops := visits.map (fun p => mkStopDict locations p.1 p.2)
  let vehicle_load := (visits.map (fun p => (locations.getD p.1 default).demand)).sum
  if path_stops.length ≤ 1 then
    ⟨vehicle_id + 1, [], [], 0, 0⟩
  else
    let full_stops :=
      if request.open_path then path_stops
      else path_stops ++ [⟨depot.lat, depot.lon, depot.id, 0, formatArrival endArr⟩]
    let gr := get_route_geometry full_stops response
    let formatted_path := full_stops.enum.map (fun q =>
      (⟨q.1 + 1, q.2.lat, q.2.lon, q.2.id, q.2.demand, q.2.arrival_time⟩ : StopOut))
    ⟨vehicle_id + 1, formatted_path, gr.1, round2km gr.2, vehicle_load⟩

/-- The extraction loop over all vehicles, src/main.py lines 185-217.
`responses` gives the geometry-provider response per vehicle. -/
def extractRoutes (request : OptimizationRequest) (locations : List Job)
    (s : SolverSolution) (responses : Nat → Option OsrmResponse) : List RouteOut :=
  (List.range request.vehicle_count).map (fun v =>
    buildVehicleRoute request locations v (routeVisits s v)
      (s.endArrival.getD v 0) (responses v))

/-- The two distinct failures the optimize handler surfaces: the HTTP
500 "Harita servisi hatası" raised when the distance provider fails
(src/main.py line 125) and the HTTP 400 "Rota bulunamadı!" raised when
the solver returns no solution (line 222). -/
inductive ApiError where
  | mapServiceError
  | noRouteFound
deriving Repr, DecidableEq

/-- The success payload of the optimize handler: the per-vehicle routes
(map rendering is presentation and is not modelled). -/
structure OptimizeResponse where
  routes : List RouteOut
deriving Repr, DecidableEq

/-- The optimize handler of src/main.py lines 119-222.  The external
distance provider is modelled by `osrm` (none = failure), the external
search engine by `solve` (none = no solution within the budget), the
geometry provider by `responses`. -/
def optimize (request : OptimizationRequest)
    (osrm : Option ((Nat → Nat → Int) × (Nat → Nat → Int)))
    (solve : (Nat → Nat → Int) → (Nat → Nat → Int) → Option SolverSolution)
    (responses : Nat → Option OsrmResponse) : Except ApiError OptimizeResponse :=
  match osrm with
  | none => Except.error ApiError.mapServiceError
  | some m =>
    match solve m.1 m.2 with
    | none => Except.error ApiError.noRouteFound
    | some s => Except.ok ⟨extractRoutes request request.jobs s responses⟩

/-- Whether a route entry's stop list ends with a stop standing at the
depot (by job id). -/
def endsWithDepotReturn (depotId : Int) (r : RouteOut) : Bool :=
  match r.path.getLast? with
  | some s => s.original_id == depotId
  | none => false

/-- The failure conditions of the geometry provider call: fewer than two
stops, a network exception, a non-200 status, or a response without
routes. -/
def geomFailure (path_locations : List StopDict)
    (response : Option OsrmResponse) : Bool :=
  path_locations.length < 2 ||
    (match response with
     | none => true
     | some r => r.status_code != 200 || r.routes.isEmpty)

/-! Helper lemmas. -/

/-- Mapping an index through the manager twice is the same as mapping it
once. -/
theorem indexToNode_idem (n i : Nat) :
    indexToNode n (indexToNode n i) = indexToNode n i := by
  unfold indexToNode
  by_cases h : i < n
  · simp [h]
  · simp [h]

/-- A concrete test matrix used by witnesses and counterexamples. -/
def mat10 : Nat → Nat → Int := fun i j => 10 * (i : Int) + j

/-- A concrete location list whose depot entry carries demand 5. -/
def cexDepotLocs : List Job :=
  [{ id := 0, lat := 0, lon := 0, demand := 5 },
   { id := 1, lat := 1, lon := 1, demand := 7 }]

/-! Claim theorems. -/

/-- C4: for every pair of nodes, the arc-cost callback returns the
distance-matrix entry, except that it returns 0 when open-path mode is
active and the destination is the depot node; and on arbitrary indices
it depends only on the nodes the indices denote (it is a pure function
of the node pair). -/
theorem distance_callback_spec (open_path : Bool)
    (distance_matrix : Nat → Nat → Int) (n from_node to_node : Nat)
    (hf : from_node < n) (ht : to_node < n) :
    distance_callback open_path distance_matrix n from_node to_node =
      (if open_path = true ∧ to_node = 0 then 0
       else distance_matrix from_node to_node) ∧
    ∀ from_index to_index : Nat,
      distance_callback open_path distance_matrix n from_index to_index =
        distance_callback open_path distance_matrix n
          (indexToNode n from_index) (indexToNode n to_index) := by
  constructor
  · simp only [distance_callback, indexToNode, if_pos hf, if_pos ht]
  · intro fi ti
    simp only [distance_callback, indexToNode_idem]

/-- Witness for C4 at open_path = true, n = 3, nodes (1, 0). -/
theorem distance_callback_spec_witness :
    (1 < 3 ∧ 0 < 3) ∧
    (distance_callback true mat10 3 1 0 =
      (if true = true ∧ 0 = 0 then 0 else mat10 1 0) ∧
    ∀ from_index to_index : Nat,
      distance_callback true mat10 3 from_index to_index =
        distance_callback true mat10 3
          (indexToNode 3 from_index) (indexToNode 3 to_index)) :=
  ⟨⟨by decide, by decide⟩,
   distance_callback_spec true mat10 3 1 0 (by decide) (by decide)⟩

/-- C2 counterexample: with open-path mode off, the time callback
returns 0 on the node pair (1, 1), not the duration-matrix entry plus
the service time as the claim states for every pair. -/
theorem time_callback_diagonal_counterexample :
    time_callback false mat10 3 1 1 ≠ mat10 1 1 + SERVICE_TIME ∧
    time_callback false mat10 3 1 1 = 0 := by
  constructor
  · decide
  · decide

/-- C2 amended: for every pair of nodes, the time callback returns the
duration-matrix entry plus the fixed service time, except that it
returns 0 when the two nodes coincide, and 0 when open-path mode is
active and the destination is the depot node. -/
theorem time_callback_spec (open_path : Bool)
    (duration_matrix : Nat → Nat → Int) (n from_node to_node : Nat)
    (hf : from_node < n) (ht : to_node < n) :
    time_callback open_path duration_matrix n from_node to_node =
      (if from_node = to_node then 0
       else if open_path = true ∧ to_node = 0 then 0
       else duration_matrix from_node to_node + SERVICE_TIME) := by
  simp only [time_callback, indexToNode, if_pos hf, if_pos ht]

/-- Witness for C2's amended theorem at open_path = false, n = 3,
nodes (1, 2). -/
theorem time_callback_spec_witness :
    (1 < 3 ∧ 2 < 3) ∧
    time_callback false mat10 3 1 2 =
      (if 1 = 2 then 0
       else if false = true ∧ 2 = 0 then 0
       else mat10 1 2 + SERVICE_TIME) :=
  ⟨⟨by decide, by decide⟩, time_callback_spec false mat10 3 1 2 (by decide) (by decide)⟩

/-- C3 counterexample: when the request supplies demand 5 for the depot
job (id 0), the capacity callback contributes 5 at the depot node, not 0
as the claim states. -/
theorem demand_callback_depot_counterexample :
    demand_callback cexDepotLocs 0 = 5 ∧ (5 : Int) ≠ 0 := by
  constructor
  · decide
  · decide

/-- C3 amended: the capacity contribution at every node equals the
demand supplied for that node's job — including the depot node, whose
contribution is the demand supplied for job id 0 (0 under the request
default, but not forced to 0). -/
theorem demand_callback_spec (locations : List Job) (from_node : Nat)
    (h : from_node < locations.length) :
    demand_callback locations from_node =
      (locations.getD from_node default).demand := by
  simp only [demand_callback, indexToNode, if_pos h]

/-- Witness for C3's amended theorem at the depot node of a concrete
location list. -/
theorem demand_callback_spec_witness :
    0 < cexDepotLocs.length ∧
    demand_callback cexDepotLocs 0 = (cexDepotLocs.getD 0 default).demand :=
  ⟨by decide, demand_callback_spec cexDepotLocs 0 (by decide)⟩

/-- C9 counterexample: there is no request under which the global span
cost coefficient differs from 0 — it is not tunable per request. -/
theorem span_coefficient_not_tunable :
    ¬ ∃ r : OptimizationRequest, globalSpanCostCoefficient r ≠ 0 :=
  fun h => h.choose_spec rfl

/-- C9 amended: the global span cost coefficient of the Distance
dimension is the hard-coded constant 0, identical for every request. -/
theorem span_coefficient_constant_zero :
    ∀ r : OptimizationRequest, globalSpanCostCoefficient r = 0 :=
  fun _ => rfl

/-- C7: given the distance matrices, the optimize operation succeeds
exactly when the search engine returns a solution; when the engine finds
none, the operation fails totally with the distinct no-route-found
error, carrying no route data. -/
theorem optimize_failure_total (request : OptimizationRequest)
    (m : (Nat → Nat → Int) × (Nat → Nat → Int))
    (solve : (Nat → Nat → Int) → (Nat → Nat → Int) → Option SolverSolution)
    (responses : Nat → Option OsrmResponse) :
    ((optimize request (some m) solve responses).isOk
        = (solve m.1 m.2).isSome) ∧
    (optimize request (some m) solve responses
        = Except.error ApiError.noRouteFound ↔ solve m.1 m.2 = none) ∧
    ((optimize request (some m) solve responses
        = Except.error ApiError.mapServiceError) = False) := by
  cases h : solve m.1 m.2 <;>
    simp [optimize, h, Except.isOk, Except.toBool]

/-- C10 helper: both branches of the per-vehicle extraction report the
1-based vehicle id. -/
theorem buildVehicleRoute_vehicle_id (request : OptimizationRequest)
    (locations : List Job) (v : Nat) (visits : List (Nat × Int))
    (endArr : Int) (response : Option OsrmResponse) :
    (buildVehicleRoute request locations v visits endArr response).vehicle_id
      = v + 1 := by
  by_cases h : visits.length ≤ 1 <;> simp [buildVehicleRoute, h]

/-- C10: the extraction emits one route entry per vehicle, and the entry
for internal vehicle index i carries vehicle_id i + 1 (1-based). -/
theorem vehicle_ids_one_based (request : OptimizationRequest)
    (locations : List Job) (s : SolverSolution)
    (responses : Nat → Option OsrmResponse) (i : Nat)
    (h : i < request.vehicle_count) :
    (extractRoutes request locations s responses).length
        = request.vehicle_count ∧
    ((extractRoutes request locations s responses).getD i default).vehicle_id
        = i + 1 := by
  constructor
  · simp [extractRoutes]
  · simp only [extractRoutes, List.getD_eq_getElem?_getD, List.getElem?_map,
      List.getElem?_range h, Option.map_some, Option.getD_some]
    exact buildVehicleRoute_vehicle_id ..

/-- Characterization of one step of the time-window loop. -/
theorem twbStep_eq_some (locations : List Job) (j : Nat) (b : TimeWindowBound) :
    twbStep locations j = some b ↔
      (normalizeWindow (locations.getD j default).time_start
          (locations.getD j default).time_end ≠ (480, 1080) ∧
       b = ⟨j, (normalizeWindow (locations.getD j default).time_start
                  (locations.getD j default).time_end).1,
               (normalizeWindow (locations.getD j default).time_start
                  (locations.getD j default).time_end).2, 100⟩) := by
  have hne : ∀ p : Int × Int, p ≠ (480, 1080) ↔ (p.1 ≠ 480 ∨ p.2 ≠ 1080) := by
    intro p
    simp only [ne_eq, Prod.ext_iff, not_and_or]
  by_cases hc : (normalizeWindow (locations.getD j default).time_start
      (locations.getD j default).time_end).1 ≠ 480 ∨
      (normalizeWindow (locations.getD j default).time_start
      (locations.getD j default).time_end).2 ≠ 1080
  · simp only [twbStep, if_pos hc, Option.some_inj, hne]
    constructor
    · intro h
      exact ⟨hc, h.symm⟩
    · intro h
      exact h.2.symm
  · simp only [twbStep, if_neg hc, hne]
    constructor
    · intro h
      exact absurd h (by simp)
    · intro h
      exact absurd h.1 (by simpa using hc)

/-- C5: for every non-depot location index, a time-window bound is
registered if and only if the swap-normalized window differs from the
default [480, 1080], and any bound registered for that index is the hard
minimum at the normalized window start together with the soft upper
bound at the normalized window end with penalty coefficient 100. -/
theorem timeWindowBounds_spec (locations : List Job) (i : Nat)
    (h1 : 1 ≤ i) (h2 : i < locations.length) :
    ((∃ b ∈ timeWindowBounds locations, b.node = i) ↔
      normalizeWindow (locations.getD i default).time_start
          (locations.getD i default).time_end ≠ (480, 1080)) ∧
    (∀ b ∈ timeWindowBounds locations, b.node = i →
      b = ⟨i, (normalizeWindow (locations.getD i default).time_start
                 (locations.getD i default).time_end).1,
              (normalizeWindow (locations.getD i default).time_start
                 (locations.getD i default).time_end).2, 100⟩) := by
  have hmem : ∀ j : Nat, j ∈ List.range' 1 (locations.length - 1) ↔
      1 ≤ j ∧ j < locations.length := by
    intro j
    rw [List.mem_range'_1]
    omega
  constructor
  · constructor
    · rintro ⟨b, hb, hbi⟩
      rw [timeWindowBounds, List.mem_filterMap] at hb
      obtain ⟨a, _, hfa⟩ := hb
      rw [twbStep_eq_some] at hfa
      have hai : a = i := by
        have := congrArg TimeWindowBound.node hfa.2
        simpa [hbi] using this.symm
      rw [hai] at hfa
      exact hfa.1
    · intro hp
      refine ⟨⟨i, (normalizeWindow (locations.getD i default).time_start
                 (locations.getD i default).time_end).1,
              (normalizeWindow (locations.getD i default).time_start
                 (locations.getD i default).time_end).2, 100⟩, ?_, rfl⟩
      rw [timeWindowBounds, List.mem_filterMap]
      exact ⟨i, (hmem i).mpr ⟨h1, h2⟩, (twbStep_eq_some locations i _).mpr ⟨hp, rfl⟩⟩
  · intro b hb hbi
    rw [timeWindowBounds, List.mem_filterMap] at hb
    obtain ⟨a, _, hfa⟩ := hb
    rw [twbStep_eq_some] at hfa
    have hai : a = i := by
      have := congrArg TimeWindowBound.node hfa.2
      simpa [hbi] using this.symm
    rw [hai] at hfa
    exact hfa.2

/-- A concrete location list for the C5 witness: the job at index 1 has
the non-default window [600, 620]. -/
def wTwLocs : List Job :=
  [{ id := 0, lat := 0, lon := 0 },
   { id := 3, lat := 5, lon := 5, time_start := 600, time_end := 620 }]

/-- Witness for C5 at index 1 of a concrete location list. -/
theorem timeWindowBounds_spec_witness :
    (1 ≤ 1 ∧ 1 < wTwLocs.length) ∧
    (((∃ b ∈ timeWindowBounds wTwLocs, b.node = 1) ↔
      normalizeWindow (wTwLocs.getD 1 default).time_start
          (wTwLocs.getD 1 default).time_end ≠ (480, 1080)) ∧
    (∀ b ∈ timeWindowBounds wTwLocs, b.node = 1 →
      b = ⟨1, (normalizeWindow (wTwLocs.getD 1 default).time_start
                 (wTwLocs.getD 1 default).time_end).1,
              (normalizeWindow (wTwLocs.getD 1 default).time_start
                 (wTwLocs.getD 1 default).time_end).2, 100⟩)) :=
  ⟨⟨by decide, by decide⟩, timeWindowBounds_spec wTwLocs 1 (by decide) (by decide)⟩

/-- The geometry call returns an empty polyline and distance 0 whenever
the network request raised an exception. -/
theorem get_route_geometry_none (path_locations : List StopDict) :
    get_route_geometry path_locations none = ([], 0) := by
  unfold get_route_geometry
  split <;> rfl

/-- C8: the geometry provider call yields an empty point sequence and
distance 0 on fewer than two stops, on a network exception, on a non-200
status, and on a response without routes; and a geometry failure is
non-fatal: the affected route entry carries empty geometry and total_km
0 while its stop list and total load are identical to those produced
with any other geometry response. -/
theorem geometry_failure_nonfatal :
    (∀ (path_locations : List StopDict) (response : Option OsrmResponse),
      geomFailure path_locations response = true →
      get_route_geometry path_locations response = ([], 0)) ∧
    (∀ (request : OptimizationRequest) (locations : List Job) (v : Nat)
        (visits : List (Nat × Int)) (endArr : Int) (r2 : Option OsrmResponse),
      (buildVehicleRoute request locations v visits endArr none).geometry = [] ∧
      (buildVehicleRoute request locations v visits endArr none).total_km = 0 ∧
      (buildVehicleRoute request locations v visits endArr none).path
        = (buildVehicleRoute request locations v visits endArr r2).path ∧
      (buildVehicleRoute request locations v visits endArr none).total_load
        = (buildVehicleRoute request locations v visits endArr r2).total_load) := by
  constructor
  · intro path_locations response h
    by_cases hl : path_locations.length < 2
    · simp [get_route_geometry, hl]
    · cases response with
      | none => exact get_route_geometry_none path_locations
      | some r =>
        have h2 : r.status_code ≠ 200 ∨ r.routes = [] := by
          simpa [geomFailure, hl, List.isEmpty_iff] using h
        by_cases hs : r.status_code = 200
        · have hre : r.routes = [] := by
            rcases h2 with h2 | h2
            · exact absurd hs h2
            · exact h2
          simp [get_route_geometry, hl, hs, hre]
        · simp [get_route_geometry, hl, hs]
  · intro request locations v visits endArr r2
    by_cases h : visits.length ≤ 1
    · refine ⟨?_, ?_, ?_, ?_⟩ <;> simp [buildVehicleRoute, h]
    · refine ⟨?_, ?_, ?_, ?_⟩ <;>
        simp [buildVehicleRoute, h, get_route_geometry_none, round2km]

/-- Witness for C8: the empty stop list is a failing geometry input, and
the call returns the empty polyline with distance 0 on it. -/
theorem geometry_failure_nonfatal_witness :
    geomFailure [] none = true ∧ get_route_geometry [] none = ([], 0) :=
  ⟨by decide, geometry_failure_nonfatal.1 [] none (by decide)⟩

/-- The job ids along a formatted path are the ids of the underlying
stop dictionaries (numbering the stops does not change them). -/
theorem enum_stops_map_id (l : List StopDict) :
    (l.enum.map (fun q =>
      (⟨q.1 + 1, q.2.lat, q.2.lon, q.2.id, q.2.demand, q.2.arrival_time⟩
        : StopOut))).map StopOut.original_id = l.map StopDict.id := by
  rw [List.map_map]
  have h : (StopOut.original_id ∘ fun q : Nat × StopDict =>
      (⟨q.1 + 1, q.2.lat, q.2.lon, q.2.id, q.2.demand, q.2.arrival_time⟩
        : StopOut)) = StopDict.id ∘ Prod.snd := rfl
  rw [h, ← List.map_map, List.enum_map_snd]

/-- The arrival strings along a formatted path are those of the
underlying stop dictionaries. -/
theorem enum_stops_map_arrival (l : List StopDict) :
    (l.enum.map (fun q =>
      (⟨q.1 + 1, q.2.lat, q.2.lon, q.2.id, q.2.demand, q.2.arrival_time⟩
        : StopOut))).map StopOut.arrival_time
      = l.map StopDict.arrival_time := by
  rw [List.map_map]
  have h : (StopOut.arrival_time ∘ fun q : Nat × StopDict =>
      (⟨q.1 + 1, q.2.lat, q.2.lon, q.2.id, q.2.demand, q.2.arrival_time⟩
        : StopOut)) = StopDict.arrival_time ∘ Prod.snd := rfl
  rw [h, ← List.map_map, List.enum_map_snd]

/-- The job ids along a non-empty route's reported path: the ids of the
visited nodes, followed by the depot id when the route is closed. -/
theorem build_path_map_id (request : OptimizationRequest)
    (locations : List Job) (v : Nat) (visits : List (Nat × Int))
    (endArr : Int) (response : Option OsrmResponse)
    (h : ¬ visits.length ≤ 1) :
    (buildVehicleRoute request locations v visits endArr response).path.map
        StopOut.original_id
      = (visitNodes visits).map (fun x => (locations.getD x default).id)
        ++ (if request.open_path then []
            else [(request.jobs.getD 0 default).id]) := by
  simp only [buildVehicleRoute, List.length_map, if_neg h]
  rw [enum_stops_map_id]
  by_cases ho : request.open_path <;>
    simp [ho, List.map_map, visitNodes, mkStopDict, Function.comp]

/-- The arrival strings along a non-empty route's reported path: those
of the visited nodes, followed by the formatted end arrival when the
route is closed. -/
theorem build_path_map_arrival (request : OptimizationRequest)
    (locations : List Job) (v : Nat) (visits : List (Nat × Int))
    (endArr : Int) (response : Option OsrmResponse)
    (h : ¬ visits.length ≤ 1) :
    (buildVehicleRoute request locations v visits endArr response).path.map
        StopOut.arrival_time
      = visits.map (fun p => formatArrival p.2)
        ++ (if request.open_path then [] else [formatArrival endArr]) := by
  simp only [buildVehicleRoute, List.length_map, if_neg h]
  rw [enum_stops_map_arrival]
  by_cases ho : request.open_path <;>
    simp [ho, List.map_map, mkStopDict, Function.comp]

/-- An empty walk produces an empty reported path. -/
theorem build_path_empty (request : OptimizationRequest)
    (locations : List Job) (v : Nat) (visits : List (Nat × Int))
    (endArr : Int) (response : Option OsrmResponse)
    (h : visits.length ≤ 1) :
    (buildVehicleRoute request locations v visits endArr response).path = [] := by
  simp [buildVehicleRoute, h]

/-- C6 counterexample data: two vehicles, one job; the accepted solution
serves the job with vehicle 0 and leaves vehicle 1 idle. -/
def cexReq : OptimizationRequest :=
  { vehicle_count := 2,
    jobs := [{ id := 0, lat := 0, lon := 0 }, { id := 1, lat := 2, lon := 3, demand := 4 }],
    open_path := false }

/-- The idle-vehicle solution for the C6 counterexample. -/
def cexSol : SolverSolution :=
  { visits := [[(0, 480), (1, 500)], [(0, 480)]], endArrival := [520, 480] }

/-- A search engine returning the C6 counterexample solution. -/
def cexSolve : (Nat → Nat → Int) → (Nat → Nat → Int) → Option SolverSolution :=
  fun _ _ => some cexSol

/-- A geometry provider that always fails. -/
def cexNoGeom : Nat → Option OsrmResponse := fun _ => none

/-- The routes of the C6 counterexample response. -/
def cexRoutes : List RouteOut := extractRoutes cexReq cexReq.jobs cexSol cexNoGeom

/-- C6 counterexample: in a successful response with open_path = false,
the idle vehicle's reported stop list is empty and hence does not end
with a synthetic depot-return stop, although the claim requires every
vehicle's stop list to do so. -/
theorem empty_route_no_depot_return_counterexample :
    (optimize cexReq (some (mat10, mat10)) cexSolve cexNoGeom).isOk = true ∧
    ValidSolution cexReq.jobs.length cexReq.vehicle_count cexSol ∧
    cexReq.open_path = false ∧
    ((cexRoutes).getD 1 default).path = [] ∧
    endsWithDepotReturn 0 ((cexRoutes).getD 1 default) = false := by
  refine ⟨rfl, by decide, rfl, ?_, ?_⟩
  · decide
  · decide

/-- C6 amended: for every vehicle whose walk serves at least one job
(its reported stop list is non-empty), the stop list ends with a
synthetic depot-return stop carrying the return arrival time exactly
when open_path is false, and does not end with a depot stop when
open_path is true. -/
theorem depot_return_stop_spec (request : OptimizationRequest)
    (locations : List Job) (v : Nat) (visits : List (Nat × Int))
    (endArr : Int) (response : Option OsrmResponse) (rest : List Nat)
    (hshape : visitNodes visits = 0 :: rest) (hrest : rest ≠ [])
    (hids : ∀ x ∈ rest,
      (locations.getD x default).id ≠ (request.jobs.getD 0 default).id) :
    (request.open_path = false →
      ((buildVehicleRoute request locations v visits endArr response).path.getLast?).map
          StopOut.original_id = some (request.jobs.getD 0 default).id ∧
      ((buildVehicleRoute request locations v visits endArr response).path.getLast?).map
          StopOut.arrival_time = some (formatArrival endArr)) ∧
    (request.open_path = true →
      endsWithDepotReturn (request.jobs.getD 0 default).id
        (buildVehicleRoute request locations v visits endArr response) = false) := by
  have hvl : visits.length = rest.length + 1 := by
    have h := congrArg List.length hshape
    simpa [visitNodes] using h
  have hrl : 0 < rest.length := List.length_pos.mpr hrest
  have hlen : ¬ visits.length ≤ 1 := by omega
  constructor
  · intro ho
    constructor
    · rw [← List.getLast?_map,
        build_path_map_id request locations v visits endArr response hlen, ho]
      simp
    · rw [← List.getLast?_map,
        build_path_map_arrival request locations v visits endArr response hlen, ho]
      simp
  · intro ho
    obtain ⟨ys, b, rfl⟩ : ∃ ys b, rest = ys ++ [b] := by
      rcases List.eq_nil_or_concat rest with hc | ⟨ys, b, hc⟩
      · exact absurd hc hrest
      · exact ⟨ys, b, by simpa using hc⟩
    have hmap : (buildVehicleRoute request locations v visits endArr
        response).path.map StopOut.original_id
        = (0 :: (ys ++ [b])).map (fun x => (locations.getD x default).id) := by
      rw [build_path_map_id request locations v visits endArr response hlen,
        hshape, ho]
      simp
    have hlast : ((buildVehicleRoute request locations v visits endArr
        response).path.map StopOut.original_id).getLast?
        = some ((locations.getD b default).id) := by
      have hlist : (0 : Nat) :: (ys ++ [b]) = (0 :: ys) ++ [b] := rfl
      rw [hmap, hlist, List.map_append, List.map_singleton]
      exact List.getLast?_concat _
    rw [List.getLast?_map] at hlast
    obtain ⟨st, hst, hstid⟩ := Option.map_eq_some'.mp hlast
    have hne2 : st.original_id ≠ (request.jobs.getD 0 default).id :=
      hstid ▸ hids b (by simp)
    unfold endsWithDepotReturn
    rw [hst]
    simpa using hne2

/-- Witness for C6's amended theorem: a closed one-vehicle route over
one job ends with the depot-return stop. -/
theorem depot_return_stop_spec_witness :
    (visitNodes [((0 : Nat), (480 : Int)), (1, 500)] = 0 :: [1] ∧
     ([1] : List Nat) ≠ [] ∧
     ∀ x ∈ ([1] : List Nat),
       (cexReq.jobs.getD x default).id ≠ (cexReq.jobs.getD 0 default).id) ∧
    ((cexReq.open_path = false →
      ((buildVehicleRoute cexReq cexReq.jobs 0 [(0, 480), (1, 500)] 520
          none).path.getLast?).map
          StopOut.original_id = some (cexReq.jobs.getD 0 default).id ∧
      ((buildVehicleRoute cexReq cexReq.jobs 0 [(0, 480), (1, 500)] 520
          none).path.getLast?).map
          StopOut.arrival_time = some (formatArrival 520)) ∧
    (cexReq.open_path = true →
      endsWithDepotReturn (cexReq.jobs.getD 0 default).id
        (buildVehicleRoute cexReq cexReq.jobs 0 [(0, 480), (1, 500)] 520
          none) = false)) :=
  ⟨⟨by decide, by decide, by decide⟩,
   depot_return_stop_spec cexReq cexReq.jobs 0 [(0, 480), (1, 500)] 520 none
     [1] (by decide) (by decide) (by decide)⟩

/-- Reading a list back by indices 0..length-1 reproduces the list. -/
theorem getD_range_self {α : Type} (t : List α) (d : α) :
    (List.range t.length).map (fun i => t.getD i d) = t := by
  induction t with
  | nil => rfl
  | cons a t ih =>
    rw [List.length_cons, List.range_succ_eq_map, List.map_cons, List.map_map]
    have hc : ((fun i => (a :: t).getD i d) ∘ Nat.succ) = fun i => t.getD i d := rfl
    rw [hc, ih]
    rfl

/-- Reading a list back by indices 1..length-1 reproduces its tail. -/
theorem range_one_map_getD {α : Type} (l : List α) (d : α) :
    (List.range' 1 (l.length - 1)).map (fun i => l.getD i d) = l.drop 1 := by
  cases l with
  | nil => rfl
  | cons a t =>
    rw [List.length_cons, Nat.add_sub_cancel, List.range'_eq_map_range,
      List.map_map]
    have hc : ((fun i => (a :: t).getD i d) ∘ (fun i => 1 + i))
        = fun i => t.getD i d := by
      funext i
      rw [Function.comp_apply, Nat.add_comm 1 i, List.getD_cons_succ]
    rw [hc, getD_range_self]
    rfl

/-- The non-depot job ids a route entry reports are exactly the ids of
the non-depot nodes its walk visits, in both the empty and the non-empty
branch of the extraction. -/
theorem build_path_filter_ids (request : OptimizationRequest)
    (locations : List Job) (v : Nat) (visits : List (Nat × Int))
    (endArr : Int) (response : Option OsrmResponse) (rest : List Nat)
    (hshape : visitNodes visits = 0 :: rest)
    (hdep : (locations.getD 0 default).id = 0)
    (hdepr : (request.jobs.getD 0 default).id = 0)
    (hids : ∀ x ∈ rest, (locations.getD x default).id ≠ 0) :
    ((buildVehicleRoute request locations v visits endArr response).path.map
        StopOut.original_id).filter (fun a => a != 0)
      = rest.map (fun x => (locations.getD x default).id) := by
  have hvl : visits.length = rest.length + 1 := by
    have h := congrArg List.length hshape
    simpa [visitNodes] using h
  by_cases h : visits.length ≤ 1
  · have hr0 : rest = [] := by
      have hl0 : rest.length = 0 := by omega
      exact List.eq_nil_of_length_eq_zero hl0
    rw [build_path_empty request locations v visits endArr response h, hr0]
    rfl
  · rw [build_path_map_id request locations v visits endArr response h, hshape,
      List.filter_append]
    have h0 : (((0 :: rest).map fun x => (locations.getD x default).id).filter
        (fun a => a != 0)) = rest.map fun x => (locations.getD x default).id := by
      rw [List.map_cons, hdep, List.filter_cons_of_neg (by simp)]
      refine List.filter_eq_self.mpr ?_
      intro a ha
      obtain ⟨x, hx, rfl⟩ := List.mem_map.mp ha
      simpa using hids x hx
    have h1 : ((if request.open_path then ([] : List Int)
        else [(request.jobs.getD 0 default).id]).filter (fun a => a != 0))
        = [] := by
      by_cases ho : request.open_path
      · rw [if_pos ho, List.filter_nil]
      · rw [if_neg ho, List.filter_singleton, hdepr]
        rfl
    rw [h0, h1, List.append_nil]

/-- C1: in every accepted and returned solution, the multiset of
non-depot job ids over all reported vehicle paths equals the multiset of
ids of the input jobs minus the depot (no duplicates, no omissions), and
the depot is the first stop of every non-empty reported path. -/
theorem accepted_solution_coverage (request : OptimizationRequest)
    (s : SolverSolution) (responses : Nat → Option OsrmResponse)
    (hvalid : ValidSolution request.jobs.length request.vehicle_count s)
    (hdep : (request.jobs.getD 0 default).id = 0)
    (hids : ∀ x ∈ List.range' 1 (request.jobs.length - 1),
      (request.jobs.getD x default).id ≠ 0) :
    ((((extractRoutes request request.jobs s responses).map (fun r =>
        (r.path.map StopOut.original_id).filter (fun a => a != 0))).flatten
        : Multiset Int)
      = ((request.jobs.drop 1).map Job.id : Multiset Int)) ∧
    (∀ r ∈ extractRoutes request request.jobs s responses,
      r.path ≠ [] → (r.path.head?).map StopOut.original_id = some 0) := by
  obtain ⟨hlenV, hlenE, hroutes, hcover⟩ := hvalid
  have hshape : ∀ v ∈ List.range request.vehicle_count,
      visitNodes (routeVisits s v)
        = 0 :: (visitNodes (routeVisits s v)).tail := by
    intro v hv
    obtain ⟨ys, hys⟩ := List.head?_eq_some_iff.mp (hroutes v hv).1
    rw [hys]
    rfl
  have hxid : ∀ v ∈ List.range request.vehicle_count,
      ∀ x ∈ (visitNodes (routeVisits s v)).tail,
        (request.jobs.getD x default).id ≠ 0 := by
    intro v hv x hx
    have hb := (hroutes v hv).2 x hx
    refine hids x ?_
    rw [List.mem_range'_1]
    omega
  constructor
  · rw [extractRoutes, List.map_map]
    have hcongr : (List.range request.vehicle_count).map
        ((fun r : RouteOut => (r.path.map StopOut.original_id).filter
            (fun a => a != 0))
          ∘ (fun v => buildVehicleRoute request request.jobs v
              (routeVisits s v) (s.endArrival.getD v 0) (responses v)))
        = (List.range request.vehicle_count).map
            (fun v => (visitNodes (routeVisits s v)).tail.map
              (fun x => (request.jobs.getD x default).id)) := by
      refine List.map_congr_left ?_
      intro v hv
      exact build_path_filter_ids request request.jobs v (routeVisits s v) _ _
        ((visitNodes (routeVisits s v)).tail) (hshape v hv) hdep hdep
        (hxid v hv)
    rw [hcongr]
    have hmm : (List.range request.vehicle_count).map
          (fun v => (visitNodes (routeVisits s v)).tail.map
            (fun x => (request.jobs.getD x default).id))
        = ((List.range request.vehicle_count).map
            (fun v => (visitNodes (routeVisits s v)).tail)).map
            (List.map (fun x => (request.jobs.getD x default).id)) := by
      rw [List.map_map]
      rfl
    rw [hmm, ← List.map_flatten]
    have hlist : (List.range' 1 (request.jobs.length - 1)).map
          (fun x => (request.jobs.getD x default).id)
        = (request.jobs.drop 1).map Job.id := by
      have hsplit2 : (List.range' 1 (request.jobs.length - 1)).map
            (fun x => (request.jobs.getD x default).id)
          = ((List.range' 1 (request.jobs.length - 1)).map
              (fun x => request.jobs.getD x default)).map Job.id := by
        rw [List.map_map]
        rfl
      rw [hsplit2, range_one_map_getD]
    calc ((((List.range request.vehicle_count).map
            (fun v => (visitNodes (routeVisits s v)).tail)).flatten.map
              (fun x => (request.jobs.getD x default).id) : List Int)
            : Multiset Int)
        = Multiset.map (fun x => (request.jobs.getD x default).id)
            (((List.range request.vehicle_count).map
              (fun v => (visitNodes (routeVisits s v)).tail)).flatten
                : Multiset Nat) :=
          (Multiset.map_coe _ _).symm
      _ = Multiset.map (fun x => (request.jobs.getD x default).id)
            ((List.range' 1 (request.jobs.length - 1) : List Nat)
              : Multiset Nat) := by
          rw [hcover]
      _ = (((List.range' 1 (request.jobs.length - 1)).map
            (fun x => (request.jobs.getD x default).id) : List Int)
              : Multiset Int) := Multiset.map_coe _ _
      _ = (((request.jobs.drop 1).map Job.id : List Int) : Multiset Int) := by
          rw [hlist]
  · intro r hr hne
    rw [extractRoutes, List.mem_map] at hr
    obtain ⟨v, hv, rfl⟩ := hr
    by_cases hl : (routeVisits s v).length ≤ 1
    · exact absurd (build_path_empty request request.jobs v (routeVisits s v)
        (s.endArrival.getD v 0) (responses v) hl) hne
    · rw [← List.head?_map,
        build_path_map_id request request.jobs v (routeVisits s v)
          (s.endArrival.getD v 0) (responses v) hl,
        hshape v hv]
      rw [List.map_cons, List.cons_append, List.head?_cons, hdep]

/-- C1 witness data: two vehicles, jobs with ids 0 (depot), 7 and 9;
each vehicle serves one job. -/
def wReq : OptimizationRequest :=
  { vehicle_count := 2,
    jobs := [{ id := 0, lat := 0, lon := 0 },
             { id := 7, lat := 1, lon := 1, demand := 3 },
             { id := 9, lat := 2, lon := 2, demand := 4 }] }

/-- The accepted solution for the C1 witness. -/
def wSol : SolverSolution :=
  { visits := [[(0, 480), (1, 500)], [(0, 480), (2, 510)]],
    endArrival := [520, 530] }

/-- Witness for C1 on a concrete two-vehicle instance. -/
theorem accepted_solution_coverage_witness :
    (ValidSolution wReq.jobs.length wReq.vehicle_count wSol ∧
     (wReq.jobs.getD 0 default).id = 0 ∧
     (∀ x ∈ List.range' 1 (wReq.jobs.length - 1),
        (wReq.jobs.getD x default).id ≠ 0)) ∧
    (((((extractRoutes wReq wReq.jobs wSol cexNoGeom).map (fun r =>
        (r.path.map StopOut.original_id).filter (fun a => a != 0))).flatten
        : Multiset Int)
      = ((wReq.jobs.drop 1).map Job.id : Multiset Int)) ∧
    (∀ r ∈ extractRoutes wReq wReq.jobs wSol cexNoGeom,
      r.path ≠ [] → (r.path.head?).map StopOut.original_id = some 0)) :=
  ⟨⟨by decide, by decide, by decide⟩,
   accepted_solution_coverage wReq wSol cexNoGeom (by decide) (by decide)
     (by decide)⟩

/-- Witness for C10 on the concrete two-vehicle instance: the entry at
internal index 1 reports vehicle_id 2. -/
theorem vehicle_ids_one_based_witness :
    1 < wReq.vehicle_count ∧
    ((extractRoutes wReq wReq.jobs wSol cexNoGeom).length
        = wReq.vehicle_count ∧
     ((extractRoutes wReq wReq.jobs wSol cexNoGeom).getD 1
        default).vehicle_id = 1 + 1) :=
  ⟨by decide, vehicle_ids_one_based wReq wReq.jobs wSol cexNoGeom 1 (by decide)⟩

end Optribute
